import Mathlib

/-!
Verification development for the LyncZ relay service.

This file gives a shallow embedding, in Lean 4, of the trade lifecycle and
chain consistency core of the relay:

- src/services/relay/src/api/state.rs        (chain config cache, client lookup)
- src/services/relay/src/api/handlers/orders.rs  (payment info submission,
                                                  order activity timeline)
- src/services/relay/src/bin/auto-cancel.rs  (expired trade reconciliation tick)
- src/services/relay/src/db/gas_costs.rs     (gas cost ledger)
- src/services/relay/src/auth.rs             (SIWE nonce store)

Modelling conventions:
- Machine integers (u64, u128, i32, i64) are modelled as Nat or Int, with an
  explicit reduction modulo 2 ^ 128 at the single spot where u128
  multiplication can wrap.
- Rust HashMap values are modelled as functions into Option.
- Async I O is modelled by passing the collaborators (database lookups and the
  blockchain client) as explicit function valued arguments, and returning the
  trace of calls that were made together with the updated state.
- A monotonic clock (std::time::Instant) is modelled by an explicit
  natural number parameter `now` measured in seconds; `x.elapsed()` becomes
  truncated subtraction `now - cached_at`.
- Fallible Rust calls (Result) are modelled by Except.
-/

-- ================================================================
-- String helpers over the underlying character list
-- (Lean kernel friendly replacements for the Rust str methods used)
-- ================================================================

/-- ASCII whitespace test, corresponding to the characters that
`str::trim` removes for the inputs relevant here. -/
def charIsSpace (c : Char) : Bool :=
  c = ' ' || c = '\t' || c = '\n' || c = '\r'

/-- Models `s.trim().is_empty()` from Rust: true iff every character of the
string is whitespace. -/
def trim_is_empty (s : String) : Bool :=
  s.data.all charIsSpace

/-- Decimal digit test used by integer parsing. -/
def charIsAsciiDigit (c : Char) : Bool :=
  decide ('0' ≤ c ∧ c ≤ '9')

/-- Models Rust `str::parse::<u128>()`: an optional leading plus sign followed
by at least one decimal digit, value below 2 ^ 128; anything else is a parse
error (`none`). -/
def parse_u128? (s : String) : Option Nat :=
  let cs := match s.data with
    | '+' :: rest => rest
    | cs => cs
  if cs = [] then none
  else if cs.all charIsAsciiDigit then
    let v := cs.foldl (fun acc c => acc * 10 + (c.toNat - 48)) 0
    if v < 2 ^ 128 then some v else none
  else none

/-- Value of one hexadecimal digit, as used by `hex::decode`. -/
def hexDigitVal? (c : Char) : Option Nat :=
  if '0' ≤ c ∧ c ≤ '9' then some (c.toNat - 48)
  else if 'a' ≤ c ∧ c ≤ 'f' then some (c.toNat - 87)
  else if 'A' ≤ c ∧ c ≤ 'F' then some (c.toNat - 55)
  else none

/-- Models `hex::decode` on a character list: consumes pairs of hex digits and
fails on an odd length input or a non hex character. Bytes are Nat below 256. -/
def hexDecodeChars : List Char → Option (List Nat)
  | [] => some []
  | [_] => none
  | c1 :: c2 :: rest =>
    match hexDigitVal? c1, hexDigitVal? c2, hexDecodeChars rest with
    | some h, some l, some bs => some ((h * 16 + l) :: bs)
    | _, _, _ => none

/-- Models `s.strip_prefix("0x").unwrap_or(s)` on the character list. -/
def strip_0x (s : String) : List Char :=
  match s.data with
  | '0' :: 'x' :: rest => rest
  | cs => cs

/-- Rust `i as u64` cast for a (possibly negative) integer: reduction
modulo 2 ^ 64. -/
def i32_as_u64 (i : Int) : Nat :=
  (i % (2 : Int) ^ 64).toNat

-- ================================================================
-- Data model (src/services/relay/src/db/models.rs is consumed through the
-- fields used by the embedded modules; field names follow the source)
-- ================================================================

/-- A database order row, with the fields read by orders.rs
(see `order_to_dto` and `submit_payment_info`). -/
structure DbOrder where
  order_id : String
  seller : String
  token : String
  total_amount : String
  remaining_amount : String
  exchange_rate : String
  rail : Int
  alipay_id : String
  alipay_name : String
  created_at : Int
  chain_id : Int
  is_public : Bool
  private_code : Option String
deriving DecidableEq

/-- A database trade row, with the fields read by orders.rs and
auto-cancel.rs. -/
structure DbTrade where
  trade_id : String
  order_id : String
  buyer : String
  chain_id : Int
  token_amount : String
  cny_amount : String
  fee_amount : Option String
  status : Int
  created_at : Int
  expires_at : Int
  settlement_tx_hash : Option String
deriving DecidableEq

/-- A database withdrawal row, with the fields read by
`get_order_activities`. The `created_at` column is a UTC datetime in the
source; it is modelled directly by its Unix timestamp (`.timestamp()` is what
the sort in the source reads from it). -/
structure DbWithdrawal where
  amount : String
  remaining_after : String
  tx_hash : Option String
  created_at : Int
deriving DecidableEq

/-- A gas cost ledger row (db/gas_costs.rs, db/models.rs DbGasCost). -/
structure DbGasCost where
  chain_id : Int
  operation : String
  trade_id : Option String
  order_id : Option String
  tx_hash : String
  gas_used : Int
  gas_price_gwei : String
  cost_wei : String
  cost_eth : String
deriving DecidableEq

/-- Models `GasCostRepository::create` (db/gas_costs.rs): a plain INSERT into
the append only gas_costs table. -/
def gas_cost_repository_create (ledger : List DbGasCost) (gas_cost : DbGasCost) :
    List DbGasCost :=
  ledger ++ [gas_cost]

-- ================================================================
-- Blockchain client interface (src/services/relay/src/blockchain/client.rs
-- is outside the embedded modules; it is modelled as a record of abstract
-- operations, exactly the four contract calls the embedded code makes).
-- 32 byte hashes are modelled as Nat (value of the big endian bytes), so the
-- all zero hash [0u8; 32] is the value 0.
-- ================================================================

/-- Contract configuration as fetched from a chain. Only the field read by
the embedded handlers is kept. -/
structure ContractConfig where
  fee_rate_bps : String
deriving DecidableEq

/-- A per chain blockchain client. `get_order_hash` additionally takes the
index of the call, so that successive RPC reads may observe different values
(node propagation lag, exactly what the retry loop in the source tolerates). -/
structure EthereumClient where
  get_order_hash : String → Nat → Except Unit Nat
  get_order_id_from_tx : String → Except Unit String
  get_contract_config : Except Unit ContractConfig
  cancel_expired_trade : List Nat → Except Unit (String × Nat)

-- ================================================================
-- src/services/relay/src/api/state.rs
-- ================================================================

/-- Cache entry with expiration (state.rs `CachedConfig`). -/
structure CachedConfig where
  config : ContractConfig
  cached_at : Nat
deriving DecidableEq

/-- The parts of `AppState` used by the embedded handlers. -/
structure AppState where
  blockchain_client : Option EthereumClient
  blockchain_clients : Nat → Option EthereumClient
  config_cache : Nat → Option CachedConfig

/-- Config cache TTL, 15 minutes, in seconds (state.rs `CONFIG_CACHE_TTL`). -/
def CONFIG_CACHE_TTL : Nat := 900

/-- Models `AppState::get_blockchain_client`: look the chain id up in the
multi chain map, falling back to the primary client if the chain id is not
found. -/
def get_blockchain_client (st : AppState) (chain_id : Nat) : Option EthereumClient :=
  (st.blockchain_clients chain_id).or st.blockchain_client

/-- Errors of `AppState::get_config_for_chain`; the source reports them as
formatted strings, modelled structurally here. -/
inductive ConfigError
| NoClientForChain (chain_id : Nat)
| FetchFailed (chain_id : Nat)
deriving DecidableEq

/-- Result of one `get_config_for_chain` call: the returned value, the config
cache afterwards, and how many upstream `get_contract_config` fetches were
performed during the call. -/
structure ConfigFetchResult where
  result : Except ConfigError ContractConfig
  config_cache : Nat → Option CachedConfig
  upstream_fetches : Nat

/-- The cache consultation step at the top of
`AppState::get_config_for_chain`: unless a refresh is forced, return the
cached config for the chain when its entry is younger than the TTL. -/
def config_cache_lookup (cache : Nat → Option CachedConfig) (now chain_id : Nat)
    (force_refresh : Bool) : Option ContractConfig :=
  if force_refresh then none
  else match cache chain_id with
    | some cached =>
      if now - cached.cached_at < CONFIG_CACHE_TTL then some cached.config
      else none
    | none => none

/-- The fetch step of `AppState::get_config_for_chain`: one upstream
`get_contract_config` call; on success the cache entry of the chain is
replaced with the fetched config and a fresh timestamp, on failure the cache
is left as it was. -/
def config_fetch_and_store (st : AppState) (now chain_id : Nat)
    (client : EthereumClient) : ConfigFetchResult :=
  match client.get_contract_config with
  | .error _ => ⟨.error (.FetchFailed chain_id), st.config_cache, 1⟩
  | .ok config =>
    ⟨.ok config,
     fun k => if k = chain_id then some ⟨config, now⟩ else st.config_cache k,
     1⟩

/-- Models `AppState::get_config_for_chain`:
return the cached entry when it exists and is younger than the TTL (unless a
refresh is forced); otherwise fetch from the client of the chain and replace
the cache entry on success only. -/
def get_config_for_chain (st : AppState) (now : Nat) (chain_id : Nat)
    (force_refresh : Bool) : ConfigFetchResult :=
  match get_blockchain_client st chain_id with
  | none => ⟨.error (.NoClientForChain chain_id), st.config_cache, 0⟩
  | some client =>
    match config_cache_lookup st.config_cache now chain_id force_refresh with
    | some config => ⟨.ok config, st.config_cache, 0⟩
    | none => config_fetch_and_store st now chain_id client

-- ================================================================
-- src/services/relay/src/api/handlers/orders.rs : activity timeline
-- ================================================================

/-- Activity entries of the order timeline (orders.rs `OrderActivity`).
The presentation only `*_formatted` string fields (produced by
`format_token_amount` / `format_cny`) are omitted; every semantically used
field is kept. -/
inductive OrderActivity
| Trade (trade_id buyer token_amount fee_amount cny_amount : String)
    (settlement_tx : Option String) (settled_at : Int)
| PendingTrade (trade_id buyer token_amount cny_amount : String)
    (created_at expires_at : Int)
| ExpiredTrade (trade_id buyer token_amount cny_amount : String)
    (created_at expired_at : Int)
| Withdrawal (amount remaining_after : String) (tx_hash : Option String)
    (created_at : Int)
deriving DecidableEq

/-- The fee rate in basis points used by `get_order_activities`: the fee rate
of the cached chain config when the fetch and the parse succeed, otherwise the
default 100 (1 percent). -/
def effective_fee_rate (st : AppState) (now : Nat) (chain_id : Nat) : Nat :=
  match (get_config_for_chain st now chain_id false).result with
  | .ok config => (parse_u128? config.fee_rate_bps).getD 100
  | .error _ => 100

/-- The fallback fee computed for a settled trade without a recorded fee:
`(token_amount.parse::<u128>().unwrap_or(0) * fee_rate_bps) / 10000`.
The u128 product wraps modulo 2 ^ 128 (release build overflow semantics). -/
def fallback_fee (fee_rate_bps : Nat) (token_amount : String) : String :=
  Nat.repr ((parse_u128? token_amount).getD 0 * fee_rate_bps % 2 ^ 128 / 10000)

/-- The activity entry built for one trade row by the status match in
`get_order_activities` (statuses 0, 1, 2; any other status is skipped). -/
def trade_activity (fee_rate_bps : Nat) (trade : DbTrade) : Option OrderActivity :=
  match trade.status with
  | 0 => some (.PendingTrade trade.trade_id trade.buyer trade.token_amount
      trade.cny_amount trade.created_at trade.expires_at)
  | 1 =>
    let fee_amount := match trade.fee_amount with
      | some fee => fee
      | none => fallback_fee fee_rate_bps trade.token_amount
    some (.Trade trade.trade_id trade.buyer trade.token_amount fee_amount
      trade.cny_amount trade.settlement_tx_hash trade.created_at)
  | 2 => some (.ExpiredTrade trade.trade_id trade.buyer trade.token_amount
      trade.cny_amount trade.created_at trade.expires_at)
  | _ => none

/-- The activity entry built for one withdrawal row. -/
def withdrawal_activity (w : DbWithdrawal) : OrderActivity :=
  .Withdrawal w.amount w.remaining_after w.tx_hash w.created_at

/-- The sort timestamp the source extracts from an activity before sorting
(the match inside `activities.sort_by`). -/
def activity_sort_ts : OrderActivity → Int
  | .Trade _ _ _ _ _ _ settled_at => settled_at
  | .PendingTrade _ _ _ _ created_at _ => created_at
  | .ExpiredTrade _ _ _ _ created_at _ => created_at
  | .Withdrawal _ _ _ created_at => created_at

/-- Modelled from the spec: the sort timestamp the specification describes,
namely the settlement time for settled trades, the creation time for pending
trades, the expiry time for expired trades, and the creation time for
withdrawals. Kept separate from `activity_sort_ts` (which is translated from
the source) so the two can be compared. -/
def spec_activity_sort_ts : OrderActivity → Int
  | .Trade _ _ _ _ _ _ settled_at => settled_at
  | .PendingTrade _ _ _ _ created_at _ => created_at
  | .ExpiredTrade _ _ _ _ _ expired_at => expired_at
  | .Withdrawal _ _ _ created_at => created_at

/-- The descending by timestamp order the comparator `ts_b.cmp(&ts_a)`
induces. -/
def activity_desc (a b : OrderActivity) : Prop :=
  activity_sort_ts b ≤ activity_sort_ts a

instance : DecidableRel activity_desc := fun a b =>
  inferInstanceAs (Decidable (activity_sort_ts b ≤ activity_sort_ts a))

/-- Models `get_order_activities` (orders.rs): build one activity per trade
(according to its status) and per withdrawal, then sort the merged list most
recent first by `activity_sort_ts`. The stable `sort_by` of Rust is modelled
by the stable insertion sort; both produce the unique stable descending
ordering. The trade and withdrawal rows are passed in as the values the two
database queries return for the order. -/
def get_order_activities (st : AppState) (now : Nat) (order : DbOrder)
    (trades : List DbTrade) (withdrawals : List DbWithdrawal) :
    List OrderActivity :=
  let fee_rate_bps := effective_fee_rate st now (i32_as_u64 order.chain_id)
  let activities :=
    trades.filterMap (trade_activity fee_rate_bps)
      ++ withdrawals.map withdrawal_activity
  List.insertionSort activity_desc activities

-- ================================================================
-- src/services/relay/src/api/handlers/orders.rs : submit_payment_info
-- ================================================================

/-- Request body of the payment info endpoint (orders.rs
`PaymentInfoRequest`). -/
structure PaymentInfoRequest where
  account_id : String
  account_name : String
  chain_id : Option Nat
  tx_hash : Option String
deriving DecidableEq

/-- The error outcomes of `submit_payment_info`; the source reports each as
`ApiError::BadRequest` with a formatted message, modelled structurally. -/
inductive PaymentInfoError
| EmptyAccountFields
| AlreadySet
| HashMismatch (computed : Nat) (last_on_chain : Option Nat)
| NoClientForChain (chain_id : Nat)
| MissingChainId
deriving DecidableEq

/-- State threaded through the on chain verification retry loop: the mutable
locals `verified`, `last_on_chain_hash_hex` and `got_zero_hash` of the source,
plus the trace of `get_order_hash` calls made so far and the index of the next
call. -/
structure VerifySt where
  verified : Bool
  last_hash : Option Nat
  got_zero_hash : Bool
  queries : List String
  call_idx : Nat
deriving DecidableEq

/-- Initial verification loop state (`verified = false`, no hash observed). -/
def initVerifySt : VerifySt := ⟨false, none, false, [], 0⟩

/-- Maximum number of on chain hash queries in the retry loop
(`MAX_RETRIES` in the source). -/
def MAX_RETRIES : Nat := 3

/-- Models the `for attempt in 1..=MAX_RETRIES` retry loop of
`submit_payment_info`, counting down the remaining attempts. One iteration
queries the on chain hash for the (unchanged) order id: an exact match sets
`verified` and breaks; the all zero hash sets `got_zero_hash` and retries; a
non zero mismatch or an RPC error just retries. The inter attempt sleeps only
delay the requesting task and are not modelled. -/
def order_hash_retry_loop (client : EthereumClient) (computed_hash : Nat)
    (order_id : String) : Nat → VerifySt → VerifySt
  | 0, s => s
  | n + 1, s =>
    match client.get_order_hash order_id s.call_idx with
    | .ok h =>
      let s2 : VerifySt := { s with last_hash := some h,
                                    queries := s.queries ++ [order_id],
                                    call_idx := s.call_idx + 1 }
      if h = computed_hash then { s2 with verified := true }
      else if h = 0 then
        order_hash_retry_loop client computed_hash order_id n
          { s2 with got_zero_hash := true }
      else order_hash_retry_loop client computed_hash order_id n s2
    | .error _ =>
      order_hash_retry_loop client computed_hash order_id n
        { s with queries := s.queries ++ [order_id],
                 call_idx := s.call_idx + 1 }

/-- Models the tx hash fallback block of `submit_payment_info`: attempted only
when the retry loop did not verify and at least one attempt observed the all
zero hash and a tx hash was supplied. It resolves the real order id from the
transaction receipt and repeats the hash comparison once against the resolved
id. Returns the effective order id, the final loop state and the trace of
`get_order_id_from_tx` calls. -/
def tx_hash_fallback (client : EthereumClient) (computed_hash : Nat)
    (effective_order_id : String) (tx_hash : Option String) (s : VerifySt) :
    String × VerifySt × List String :=
  if s.verified then (effective_order_id, s, [])
  else if s.got_zero_hash then
    match tx_hash with
    | some tx =>
      match client.get_order_id_from_tx tx with
      | .ok real_order_id =>
        match client.get_order_hash real_order_id s.call_idx with
        | .ok h =>
          (real_order_id,
           { s with last_hash := some h,
                    verified := decide (h = computed_hash),
                    queries := s.queries ++ [real_order_id],
                    call_idx := s.call_idx + 1 },
           [tx])
        | .error _ =>
          (real_order_id,
           { s with queries := s.queries ++ [real_order_id],
                    call_idx := s.call_idx + 1 },
           [tx])
      | .error _ => (effective_order_id, s, [tx])
    | none => (effective_order_id, s, [])
  else (effective_order_id, s, [])

/-- Equality of Except values is decidable when it is on both components
(used to evaluate embedded results on concrete inputs). -/
instance {ε α : Type} [DecidableEq ε] [DecidableEq α] :
    DecidableEq (Except ε α) := fun a b =>
  match a, b with
  | .error e1, .error e2 =>
    if h : e1 = e2 then isTrue (by rw [h])
    else isFalse (by intro hc; cases hc; exact h rfl)
  | .error _, .ok _ => isFalse (by intro hc; cases hc)
  | .ok _, .error _ => isFalse (by intro hc; cases hc)
  | .ok v1, .ok v2 =>
    if h : v1 = v2 then isTrue (by rw [h])
    else isFalse (by intro hc; cases hc; exact h rfl)

/-- Outcome of one `submit_payment_info` call: the handler result (the
effective order id on success), the trace of on chain `get_order_hash`
queries, the trace of `get_order_id_from_tx` fallback lookups, and the
`update_payment_info` database writes performed. -/
structure SubmitOutcome where
  result : Except PaymentInfoError String
  order_hash_queries : List String
  tx_lookups : List String
  payment_info_writes : List (String × String × String)
deriving DecidableEq

/-- The verification phase of `submit_payment_info` once a blockchain client
has been selected: run the retry loop, run the fallback, then either persist
the plaintext under the effective order id or fail with the hash mismatch
error carrying the computed and last observed hash. -/
def submit_verify_phase (client : EthereumClient) (computed_hash : Nat)
    (order_id : String) (req : PaymentInfoRequest) : SubmitOutcome :=
  let s := order_hash_retry_loop client computed_hash order_id MAX_RETRIES
    initVerifySt
  let fb := tx_hash_fallback client computed_hash order_id req.tx_hash s
  let eff := fb.1
  let s2 := fb.2.1
  let lookups := fb.2.2
  if s2.verified then
    ⟨.ok eff, s2.queries, lookups, [(eff, req.account_id, req.account_name)]⟩
  else
    ⟨.error (.HashMismatch computed_hash s2.last_hash), s2.queries, lookups, []⟩

/-- The write once guard of `submit_payment_info`: payment details already
stored for the order (both plaintext fields non empty). -/
def payment_already_set : Option DbOrder → Bool
  | some o => !(o.alipay_id == "") && !(o.alipay_name == "")
  | none => false

/-- Models `submit_payment_info` (orders.rs). Arguments:
`db_get_order` is the database order lookup (`state.db.get_order(..).ok()`),
`hashFn` is `compute_account_lines_hash` (crypto module, passed abstractly:
the handler only compares its value with on chain hashes), `order_id` is the
path parameter and `req` the request body. The final
`state.db.update_payment_info` write is recorded in the outcome trace. -/
def submit_payment_info (st : AppState) (db_get_order : String → Option DbOrder)
    (hashFn : String → String → Nat) (order_id : String)
    (req : PaymentInfoRequest) : SubmitOutcome :=
  if trim_is_empty req.account_id || trim_is_empty req.account_name then
    ⟨.error .EmptyAccountFields, [], [], []⟩
  else
    let computed_hash := hashFn req.account_name req.account_id
    let order := db_get_order order_id
    if payment_already_set order then
      ⟨.error .AlreadySet, [], [], []⟩
    else
      match (order.map fun o => i32_as_u64 o.chain_id).or req.chain_id with
      | none => ⟨.error .MissingChainId, [], [], []⟩
      | some chain_id =>
        match get_blockchain_client st chain_id with
        | none => ⟨.error (.NoClientForChain chain_id), [], [], []⟩
        | some client => submit_verify_phase client computed_hash order_id req

-- ================================================================
-- src/services/relay/src/bin/auto-cancel.rs
-- ================================================================

/-- Trade status codes matching the smart contract enum (auto-cancel.rs). -/
def TRADE_STATUS_PENDING : Int := 0

/-- Trade completed, tokens released to buyer. -/
def TRADE_STATUS_SETTLED : Int := 1

/-- Trade expired, tokens returned to order pool. -/
def TRADE_STATUS_EXPIRED : Int := 2

/-- Models `parse_trade_id` (auto-cancel.rs): strip the 0x prefix, hex decode,
and require exactly 32 bytes. -/
def parse_trade_id (trade_id : String) : Except Unit (List Nat) :=
  match hexDecodeChars (strip_0x trade_id) with
  | none => .error ()
  | some bytes => if bytes.length = 32 then .ok bytes else .error ()

/-- The database state visible to the reconciliation tick: the rows returned
by `get_expired_pending_trades`, the per trade status column written by
`update_trade_status`, and the append only gas_costs ledger. -/
structure CancelDb where
  expired_pending_trades : List DbTrade
  trade_status : String → Int
  gas_costs : List DbGasCost

/-- Result of one reconciliation tick: the value `check_and_cancel_expired`
returns (the pair of cancelled count and gas spent, or the error that aborted
the tick), and the database afterwards. -/
structure TickResult where
  result : Except Unit (Nat × Nat)
  db : CancelDb

/-- Models the per trade loop body of `check_and_cancel_expired`: select the
client registered for the chain of the trade (skip the trade when none is),
parse the trade id (the `?` operator aborts the whole tick on failure), submit
the cancellation, and on success write the Expired status and accumulate the
counters; a failed cancellation leaves the trade untouched and processing
continues with the next trade. -/
def process_expired_trades (clients : Nat → Option EthereumClient) :
    List DbTrade → Nat → Nat → CancelDb → TickResult
  | [], cancelled_count, total_gas_wei, db =>
    ⟨.ok (cancelled_count, total_gas_wei), db⟩
  | trade :: rest, cancelled_count, total_gas_wei, db =>
    match clients (i32_as_u64 trade.chain_id) with
    | none =>
      process_expired_trades clients rest cancelled_count total_gas_wei db
    | some eth_client =>
      match parse_trade_id trade.trade_id with
      | .error e => ⟨.error e, db⟩
      | .ok trade_id_bytes =>
        match eth_client.cancel_expired_trade trade_id_bytes with
        | .ok (_tx_hash, gas_cost) =>
          let db2 : CancelDb :=
            { db with trade_status := fun id =>
                if id = trade.trade_id then TRADE_STATUS_EXPIRED
                else db.trade_status id }
          process_expired_trades clients rest (cancelled_count + 1)
            (total_gas_wei + gas_cost) db2
        | .error _ =>
          process_expired_trades clients rest cancelled_count total_gas_wei db

/-- Models `check_and_cancel_expired` (auto-cancel.rs): query all expired
pending trades across all chains in one call, return immediately when there
are none, otherwise process them sequentially. -/
def check_and_cancel_expired (clients : Nat → Option EthereumClient)
    (db : CancelDb) : TickResult :=
  if db.expired_pending_trades.isEmpty then ⟨.ok (0, 0), db⟩
  else process_expired_trades clients db.expired_pending_trades 0 0 db

/-- Models the per tick accounting in the main monitoring loop
(auto-cancel.rs `main`): a successful tick adds its counters to the process
lifetime totals, a failed tick leaves them unchanged, and in either case the
loop sleeps and runs the next tick. -/
def main_tick_accumulate (totals : Nat × Nat) (r : Except Unit (Nat × Nat)) :
    Nat × Nat :=
  match r with
  | .ok (cancelled_count, gas_spent) =>
    if cancelled_count > 0 then
      (totals.1 + cancelled_count, totals.2 + gas_spent)
    else totals
  | .error _ => totals

-- ================================================================
-- src/services/relay/src/auth.rs : SIWE nonce store
-- ================================================================

/-- Nonce expiry, 5 minutes, in seconds (auth.rs `NONCE_EXPIRY_SECS`). -/
def NONCE_EXPIRY_SECS : Nat := 300

/-- The nonce store map: nonce string to the creation instant of its entry
(auth.rs `NonceStore`, a HashMap from nonce to `NonceEntry`). -/
def NonceMap : Type := String → Option Nat

/-- Models `NonceStore::generate` for a given fresh random nonce string:
drop the expired entries, then insert the nonce with the current instant. -/
def nonce_store_generate (store : NonceMap) (nonce : String) (now : Nat) :
    NonceMap :=
  fun k =>
    if k = nonce then some now
    else match store k with
      | some created_at =>
        if now - created_at < NONCE_EXPIRY_SECS then some created_at else none
      | none => none

/-- Models `NonceStore::consume`: remove the entry for the nonce; the call
returns true iff an entry existed and was younger than the expiry. -/
def nonce_store_consume (store : NonceMap) (nonce : String) (now : Nat) :
    Bool × NonceMap :=
  match store nonce with
  | some created_at =>
    (decide (now - created_at < NONCE_EXPIRY_SECS),
     fun k => if k = nonce then none else store k)
  | none => (false, store)

/-- One operation on the shared nonce store, with the instant at which it
runs: a nonce issuance (`generate`) or a consumption attempt (`consume`). -/
inductive NonceOp
| gen (nonce : String) (now : Nat)
| consume (nonce : String) (now : Nat)
deriving DecidableEq

/-- Run a sequence of nonce store operations from a given store state. -/
def run_nonce_ops : NonceMap → List NonceOp → NonceMap
  | store, [] => store
  | store, .gen nonce now :: rest =>
    run_nonce_ops (nonce_store_generate store nonce now) rest
  | store, .consume nonce now :: rest =>
    run_nonce_ops (nonce_store_consume store nonce now).2 rest

/-- The empty nonce store (`NonceStore::new`). -/
def emptyNonceStore : NonceMap := fun _ => none

/-- The nonce gate of `verify_siwe` (auth.rs): consume the nonce of the parsed
SIWE message; when consumption fails the request is rejected with the invalid
or expired nonce error before any signature verification, otherwise the
verification proceeds. -/
def verify_siwe_nonce_gate (store : NonceMap) (message_nonce : String)
    (now : Nat) : Bool × NonceMap :=
  nonce_store_consume store message_nonce now

-- ================================================================
-- Concrete fixtures used by witnesses and counterexamples
-- ================================================================

/-- A client whose only successful operation is the config fetch. -/
def primaryTestClient : EthereumClient :=
  { get_order_hash := fun _ _ => .error (),
    get_order_id_from_tx := fun _ => .error (),
    get_contract_config := .ok ⟨"250"⟩,
    cancel_expired_trade := fun _ => .error () }

/-- A state with a primary client but an empty multi chain map. -/
def fallbackTestState : AppState :=
  { blockchain_client := some primaryTestClient,
    blockchain_clients := fun _ => none,
    config_cache := fun _ => none }

/-- A state with no clients at all. -/
def noClientTestState : AppState :=
  { blockchain_client := none,
    blockchain_clients := fun _ => none,
    config_cache := fun _ => none }

/-- A state with a registered client for chain 1 and a warm cache entry for
that chain created at instant 100. -/
def cachedTestState : AppState :=
  { blockchain_client := none,
    blockchain_clients := fun k => if k = 1 then some primaryTestClient else none,
    config_cache := fun k => if k = 1 then some ⟨⟨"77"⟩, 100⟩ else none }

-- ================================================================
-- C5 (corrected)
-- ================================================================

/-- C5 counterexample: take a state whose multi chain map is empty but whose
primary client is set (exactly what `with_blockchain_clients` produces for
every configured deployment). A config lookup for chain 999, which has no
registered client, does not fail with a chain unavailable error: it is served
by the primary client, performing one upstream fetch on it. This refutes the
claim that no cross chain fallback occurs. -/
theorem C5_counterexample_primary_fallback :
    fallbackTestState.blockchain_clients 999 = none ∧
    (get_config_for_chain fallbackTestState 0 999 false).result = .ok ⟨"250"⟩ ∧
    (get_config_for_chain fallbackTestState 0 999 false).upstream_fetches = 1 :=
  ⟨rfl, rfl, rfl⟩

/-- C5 (amended): for a chain id with no registered client, the client lookup
falls back to the primary client when one is set (cross chain fallback), and a
config lookup fails with the chain unavailable error only when no primary
client is set either; in that failing case the cache is untouched and no
upstream fetch happens. -/
theorem C5_no_registered_client_behavior (st : AppState) (chain_id : Nat)
    (h : st.blockchain_clients chain_id = none) :
    get_blockchain_client st chain_id = st.blockchain_client ∧
    (st.blockchain_client = none → ∀ now force_refresh,
      (get_config_for_chain st now chain_id force_refresh).result
          = .error (.NoClientForChain chain_id) ∧
      (get_config_for_chain st now chain_id force_refresh).config_cache
          = st.config_cache ∧
      (get_config_for_chain st now chain_id force_refresh).upstream_fetches = 0) := by
  have hcl : get_blockchain_client st chain_id = st.blockchain_client := by
    unfold get_blockchain_client
    rw [h]
    rfl
  refine ⟨hcl, fun hp now force_refresh => ?_⟩
  unfold get_config_for_chain
  rw [hcl, hp]
  exact ⟨rfl, rfl, rfl⟩

/-- Witness for `C5_no_registered_client_behavior` at the state with no
clients at all, chain 7. -/
theorem C5_no_registered_client_behavior_witness :
    noClientTestState.blockchain_clients 7 = none ∧
    (get_blockchain_client noClientTestState 7 = noClientTestState.blockchain_client ∧
     (noClientTestState.blockchain_client = none → ∀ now force_refresh,
       (get_config_for_chain noClientTestState now 7 force_refresh).result
           = .error (.NoClientForChain 7) ∧
       (get_config_for_chain noClientTestState now 7 force_refresh).config_cache
           = noClientTestState.config_cache ∧
       (get_config_for_chain noClientTestState now 7 force_refresh).upstream_fetches
           = 0)) :=
  ⟨rfl, C5_no_registered_client_behavior noClientTestState 7 rfl⟩

-- ================================================================
-- Reduction lemmas for get_config_for_chain (shared helpers)
-- ================================================================

/-- Reduction of `get_config_for_chain` when no client resolves. -/
theorem get_config_eq_noclient (st : AppState) (now chain_id : Nat)
    (force_refresh : Bool)
    (hcl : get_blockchain_client st chain_id = none) :
    get_config_for_chain st now chain_id force_refresh
        = ⟨.error (.NoClientForChain chain_id), st.config_cache, 0⟩ := by
  unfold get_config_for_chain
  rw [hcl]

/-- Reduction of `get_config_for_chain` on a fresh cache hit. -/
theorem get_config_eq_hit (st : AppState) (now chain_id : Nat)
    (force_refresh : Bool) (client : EthereumClient) (config : ContractConfig)
    (hcl : get_blockchain_client st chain_id = some client)
    (hhit : config_cache_lookup st.config_cache now chain_id force_refresh
        = some config) :
    get_config_for_chain st now chain_id force_refresh
        = ⟨.ok config, st.config_cache, 0⟩ := by
  unfold get_config_for_chain
  rw [hcl, hhit]

/-- Reduction of `get_config_for_chain` on a cache miss: the call defers to
the fetch and store step. -/
theorem get_config_eq_fetch (st : AppState) (now chain_id : Nat)
    (force_refresh : Bool) (client : EthereumClient)
    (hcl : get_blockchain_client st chain_id = some client)
    (hhit : config_cache_lookup st.config_cache now chain_id force_refresh
        = none) :
    get_config_for_chain st now chain_id force_refresh
        = config_fetch_and_store st now chain_id client := by
  unfold get_config_for_chain
  rw [hcl, hhit]

-- ================================================================
-- C6 (confirmed)
-- ================================================================

/-- C6: for a chain id with a registered client, `get_config_for_chain` with
`force_refresh = false` returns the cached snapshot with zero upstream fetches
and an unchanged cache whenever a cache entry younger than the 15 minute TTL
exists; in every other case (forced refresh, cold cache, or expired entry) it
performs exactly one upstream fetch and, on success, replaces the cache entry
of that chain with the fetched config and a fresh timestamp, leaving other
chains untouched. -/
theorem C6_config_cache_ttl_behavior (st : AppState) (now chain_id : Nat)
    (force_refresh : Bool) (client : EthereumClient)
    (hreg : st.blockchain_clients chain_id = some client) :
    ((force_refresh = false →
      ∀ entry, st.config_cache chain_id = some entry →
        now - entry.cached_at < CONFIG_CACHE_TTL →
        (get_config_for_chain st now chain_id force_refresh).result
            = .ok entry.config ∧
        (get_config_for_chain st now chain_id force_refresh).upstream_fetches = 0 ∧
        (get_config_for_chain st now chain_id force_refresh).config_cache
            = st.config_cache) ∧
     ((force_refresh = true ∨ st.config_cache chain_id = none ∨
       (∀ entry, st.config_cache chain_id = some entry →
         ¬ (now - entry.cached_at < CONFIG_CACHE_TTL))) →
      (get_config_for_chain st now chain_id force_refresh).upstream_fetches = 1 ∧
      (∀ config, client.get_contract_config = .ok config →
        (get_config_for_chain st now chain_id force_refresh).result = .ok config ∧
        (get_config_for_chain st now chain_id force_refresh).config_cache chain_id
            = some ⟨config, now⟩ ∧
        (∀ k, k ≠ chain_id →
          (get_config_for_chain st now chain_id force_refresh).config_cache k
              = st.config_cache k)))) := by
  have hcl : get_blockchain_client st chain_id = some client := by
    unfold get_blockchain_client
    rw [hreg]
    rfl
  constructor
  · intro hforce entry hentry httl
    have hhit : config_cache_lookup st.config_cache now chain_id force_refresh
        = some entry.config := by
      unfold config_cache_lookup
      rw [hforce, hentry]
      simp [httl]
    rw [get_config_eq_hit st now chain_id force_refresh client entry.config hcl hhit]
    exact ⟨rfl, rfl, rfl⟩
  · intro hmiss
    have hhit : config_cache_lookup st.config_cache now chain_id force_refresh
        = none := by
      unfold config_cache_lookup
      rcases hmiss with hf | hnone | hstale
      · simp [hf]
      · rw [hnone]
        cases force_refresh <;> simp
      · cases hforce : force_refresh
        · simp only [Bool.false_eq_true, if_false]
          cases hentry : st.config_cache chain_id with
          | none => rfl
          | some entry => exact if_neg (hstale entry hentry)
        · rfl
    rw [get_config_eq_fetch st now chain_id force_refresh client hcl hhit]
    unfold config_fetch_and_store
    generalize hfc : client.get_contract_config = fc
    cases fc with
    | error u =>
      refine ⟨rfl, fun config hcfg => ?_⟩
      exact Except.noConfusion hcfg
    | ok config0 =>
      refine ⟨rfl, fun config hcfg => ?_⟩
      injection hcfg with he2
      subst he2
      exact ⟨rfl, by simp, fun k hk => by simp [hk]⟩

/-- Witness for `C6_config_cache_ttl_behavior` at the warm cache state,
chain 1, instant 200 (the entry of age 100 is inside the TTL). -/
theorem C6_config_cache_ttl_behavior_witness :
    cachedTestState.blockchain_clients 1 = some primaryTestClient ∧
    (get_config_for_chain cachedTestState 200 1 false).result = .ok ⟨"77"⟩ ∧
    (get_config_for_chain cachedTestState 200 1 false).upstream_fetches = 0 ∧
    (get_config_for_chain cachedTestState 200 1 true).upstream_fetches = 1 ∧
    (get_config_for_chain cachedTestState 200 1 true).config_cache 1
        = some ⟨⟨"250"⟩, 200⟩ := by
  have h := C6_config_cache_ttl_behavior cachedTestState 200 1 false
    primaryTestClient rfl
  have h2 := C6_config_cache_ttl_behavior cachedTestState 200 1 true
    primaryTestClient rfl
  have hhit := h.1 rfl ⟨⟨"77"⟩, 100⟩ rfl (by decide)
  have hmiss := h2.2 (Or.inl rfl)
  exact ⟨rfl, hhit.1, hhit.2.1, hmiss.1, (hmiss.2 ⟨"250"⟩ rfl).2.1⟩

-- ================================================================
-- C7 (confirmed)
-- ================================================================

/-- C7: whenever `get_config_for_chain` fails (no client resolvable for the
chain id, or the upstream config fetch errors), the config cache is returned
exactly as it was: a failed refresh never overwrites or removes any previously
cached entry. -/
theorem C7_failed_refresh_cache_untouched (st : AppState) (now chain_id : Nat)
    (force_refresh : Bool) (e : ConfigError)
    (h : (get_config_for_chain st now chain_id force_refresh).result = .error e) :
    (get_config_for_chain st now chain_id force_refresh).config_cache
        = st.config_cache := by
  cases hcl : get_blockchain_client st chain_id with
  | none => rw [get_config_eq_noclient st now chain_id force_refresh hcl]
  | some client =>
    cases hhit : config_cache_lookup st.config_cache now chain_id force_refresh with
    | some config =>
      rw [get_config_eq_hit st now chain_id force_refresh client config hcl hhit]
        at h
      cases h
    | none =>
      rw [get_config_eq_fetch st now chain_id force_refresh client hcl hhit]
        at h ⊢
      unfold config_fetch_and_store at h ⊢
      generalize hfc : client.get_contract_config = fc at h ⊢
      cases fc with
      | error u => rfl
      | ok config => cases h

/-- Witness for `C7_failed_refresh_cache_untouched`: the clientless state
fails the lookup for chain 3 and leaves the (empty) cache untouched. -/
theorem C7_failed_refresh_cache_untouched_witness :
    (get_config_for_chain noClientTestState 50 3 false).result
        = .error (.NoClientForChain 3) ∧
    (get_config_for_chain noClientTestState 50 3 false).config_cache
        = noClientTestState.config_cache :=
  ⟨rfl, C7_failed_refresh_cache_untouched noClientTestState 50 3 false
    (.NoClientForChain 3) rfl⟩

-- ================================================================
-- Fixtures for the payment info claims
-- ================================================================

/-- An order whose plaintext payment details were already stored by a first
successful submission. -/
def setTestOrder : DbOrder :=
  ⟨"o1", "0xseller", "0xtoken", "1000000", "1000000", "7.2", 0,
   "id1", "name1", 0, 8453, true, none⟩

/-- A database holding only `setTestOrder`. -/
def setTestDb : String → Option DbOrder :=
  fun k => if k = "o1" then some setTestOrder else none

/-- A resubmission request with valid, non empty plaintext fields. -/
def resubmitTestReq : PaymentInfoRequest :=
  ⟨"12345", "Alice", some 8453, none⟩

-- ================================================================
-- C1 (confirmed)
-- ================================================================

/-- C1: when the stored payment details of the order are already non empty,
any further well formed `submit_payment_info` call is rejected with the
AlreadySet error with an empty on chain query trace (so no on chain hash check
is performed, whatever the submitted plaintext would hash to) and an empty
write trace (so the stored plaintext of the first successful call is left
unchanged). -/
theorem C1_write_once_already_set (st : AppState)
    (db_get_order : String → Option DbOrder) (hashFn : String → String → Nat)
    (order_id : String) (req : PaymentInfoRequest) (o : DbOrder)
    (hid : trim_is_empty req.account_id = false)
    (hname : trim_is_empty req.account_name = false)
    (hord : db_get_order order_id = some o)
    (hset_id : o.alipay_id ≠ "")
    (hset_name : o.alipay_name ≠ "") :
    submit_payment_info st db_get_order hashFn order_id req
        = ⟨.error .AlreadySet, [], [], []⟩ := by
  have hset : payment_already_set (db_get_order order_id) = true := by
    rw [hord]
    simp [payment_already_set, hset_id, hset_name]
  simp [submit_payment_info, hid, hname, hset]

/-- Witness for `C1_write_once_already_set`: resubmitting valid plaintext for
the order with stored details is rejected with AlreadySet, no chain queries,
no writes. -/
theorem C1_write_once_already_set_witness :
    trim_is_empty resubmitTestReq.account_id = false ∧
    trim_is_empty resubmitTestReq.account_name = false ∧
    setTestDb "o1" = some setTestOrder ∧
    setTestOrder.alipay_id ≠ "" ∧
    setTestOrder.alipay_name ≠ "" ∧
    submit_payment_info fallbackTestState setTestDb (fun _ _ => 7) "o1"
        resubmitTestReq = ⟨.error .AlreadySet, [], [], []⟩ :=
  ⟨by decide, by decide, rfl, by decide, by decide,
   C1_write_once_already_set fallbackTestState setTestDb (fun _ _ => 7) "o1"
     resubmitTestReq setTestOrder (by decide) (by decide) rfl (by decide)
     (by decide)⟩

-- ================================================================
-- Reduction lemmas for submit_payment_info (shared helpers)
-- ================================================================

/-- When the plaintext fields are non empty, the write once guard passes, a
chain id is determined and a client resolves, `submit_payment_info` reduces to
its on chain verification phase. -/
theorem submit_payment_info_eq_verify_phase (st : AppState)
    (db_get_order : String → Option DbOrder) (hashFn : String → String → Nat)
    (order_id : String) (req : PaymentInfoRequest) (chain_id : Nat)
    (client : EthereumClient)
    (hid : trim_is_empty req.account_id = false)
    (hname : trim_is_empty req.account_name = false)
    (hnotset : payment_already_set (db_get_order order_id) = false)
    (hcid : ((db_get_order order_id).map fun o => i32_as_u64 o.chain_id).or
        req.chain_id = some chain_id)
    (hcl : get_blockchain_client st chain_id = some client) :
    submit_payment_info st db_get_order hashFn order_id req
      = submit_verify_phase client (hashFn req.account_name req.account_id)
          order_id req := by
  unfold submit_payment_info
  rw [hid, hname]
  simp only [Bool.or_self, Bool.false_eq_true, if_false, hnotset, hcid, hcl]

/-- The fallback lookup trace of the verify phase is exactly the trace of the
tx hash fallback step. -/
theorem submit_verify_phase_lookups (client : EthereumClient) (computed : Nat)
    (order_id : String) (req : PaymentInfoRequest) :
    (submit_verify_phase client computed order_id req).tx_lookups
      = (tx_hash_fallback client computed order_id req.tx_hash
          (order_hash_retry_loop client computed order_id MAX_RETRIES
            initVerifySt)).2.2 := by
  unfold submit_verify_phase
  dsimp only
  split <;> rfl

/-- Characterization of when the tx hash fallback performs a receipt lookup:
exactly when the loop neither verified nor ran without seeing a zero hash, and
a tx hash is present; the trace then contains exactly that tx hash. -/
theorem tx_hash_fallback_lookups (client : EthereumClient) (computed : Nat)
    (order_id : String) (txh : Option String) (s : VerifySt) :
    (tx_hash_fallback client computed order_id txh s).2.2
      = if s.verified = false ∧ s.got_zero_hash = true ∧ txh.isSome = true
        then txh.toList else [] := by
  unfold tx_hash_fallback
  cases hv : s.verified with
  | true => simp
  | false =>
    cases hz : s.got_zero_hash with
    | false => simp
    | true =>
      cases txh with
      | none => simp
      | some tx =>
        simp only [Option.isSome_some, Option.toList_some, and_true, if_true,
          eq_self_iff_true, true_and]
        cases client.get_order_id_from_tx tx with
        | error e => simp
        | ok rid =>
          cases hgh : client.get_order_hash rid s.call_idx with
          | ok h => simp [hgh]
          | error e => simp [hgh]

/-- The successful fallback path: with an unverified loop that saw a zero
hash, a supplied tx hash whose receipt resolves to some order id, and an on
chain hash at that resolved id equal to the computed hash, the fallback
returns the resolved id with a verified state. -/
theorem tx_hash_fallback_success (client : EthereumClient) (computed : Nat)
    (order_id tx resolved_id : String) (s : VerifySt)
    (hv : s.verified = false) (hz : s.got_zero_hash = true)
    (hres : client.get_order_id_from_tx tx = .ok resolved_id)
    (hhash : client.get_order_hash resolved_id s.call_idx = .ok computed) :
    tx_hash_fallback client computed order_id (some tx) s
      = (resolved_id,
         { s with last_hash := some computed, verified := true,
                  queries := s.queries ++ [resolved_id],
                  call_idx := s.call_idx + 1 },
         [tx]) := by
  unfold tx_hash_fallback
  simp [hv, hz, hres, hhash]

-- ================================================================
-- C2 (corrected)
-- ================================================================

/-- C2 (amended): under the preconditions that make `submit_payment_info`
reach the on chain verification phase, the tx hash fallback receipt lookup is
attempted if and only if a tx hash was supplied and the retry loop ended
unverified with at least one attempt having observed the all zero on chain
hash (so never when only non zero mismatches or errors were observed; but a
single zero observation suffices, the source does not require all three); and
when the fallback resolves a different order id whose on chain commitment
matches the computed hash, verification succeeds and the resolved order id,
not the originally supplied one, is returned and used to persist the
plaintext. -/
theorem C2_tx_fallback_trigger_and_resolution (st : AppState)
    (db_get_order : String → Option DbOrder) (hashFn : String → String → Nat)
    (order_id : String) (req : PaymentInfoRequest) (chain_id : Nat)
    (client : EthereumClient)
    (hid : trim_is_empty req.account_id = false)
    (hname : trim_is_empty req.account_name = false)
    (hnotset : payment_already_set (db_get_order order_id) = false)
    (hcid : ((db_get_order order_id).map fun o => i32_as_u64 o.chain_id).or
        req.chain_id = some chain_id)
    (hcl : get_blockchain_client st chain_id = some client) :
    ((submit_payment_info st db_get_order hashFn order_id req).tx_lookups ≠ []
      ↔ ((order_hash_retry_loop client (hashFn req.account_name req.account_id)
            order_id MAX_RETRIES initVerifySt).verified = false ∧
         (order_hash_retry_loop client (hashFn req.account_name req.account_id)
            order_id MAX_RETRIES initVerifySt).got_zero_hash = true ∧
         req.tx_hash.isSome = true)) ∧
    (∀ tx resolved_id, req.tx_hash = some tx →
      (order_hash_retry_loop client (hashFn req.account_name req.account_id)
          order_id MAX_RETRIES initVerifySt).verified = false →
      (order_hash_retry_loop client (hashFn req.account_name req.account_id)
          order_id MAX_RETRIES initVerifySt).got_zero_hash = true →
      client.get_order_id_from_tx tx = .ok resolved_id →
      client.get_order_hash resolved_id
          (order_hash_retry_loop client (hashFn req.account_name req.account_id)
            order_id MAX_RETRIES initVerifySt).call_idx
          = .ok (hashFn req.account_name req.account_id) →
      (submit_payment_info st db_get_order hashFn order_id req).result
          = .ok resolved_id ∧
      (submit_payment_info st db_get_order hashFn order_id req).payment_info_writes
          = [(resolved_id, req.account_id, req.account_name)]) := by
  have hred := submit_payment_info_eq_verify_phase st db_get_order hashFn
    order_id req chain_id client hid hname hnotset hcid hcl
  rw [hred]
  constructor
  · rw [submit_verify_phase_lookups, tx_hash_fallback_lookups]
    cases htx : req.tx_hash with
    | none => simp
    | some tx =>
      simp only [Option.isSome_some, Option.toList_some, and_true]
      by_cases hC : ((order_hash_retry_loop client
          (hashFn req.account_name req.account_id) order_id MAX_RETRIES
          initVerifySt).verified = false ∧
        (order_hash_retry_loop client (hashFn req.account_name req.account_id)
          order_id MAX_RETRIES initVerifySt).got_zero_hash = true)
      · simp [hC]
      · simp [hC]
  · intro tx resolved_id htx hv hz hres hhash
    unfold submit_verify_phase
    dsimp only
    rw [htx, tx_hash_fallback_success client
      (hashFn req.account_name req.account_id) order_id tx resolved_id
      (order_hash_retry_loop client (hashFn req.account_name req.account_id)
        order_id MAX_RETRIES initVerifySt) hv hz hres hhash]
    simp

/-- A client for the mixed retry scenario: queries for the supplied order id
return the non zero mismatching hash 5 on call indices 0 and 2 and the all
zero hash on call index 1; the receipt of tx "0xT" resolves to "oid2", whose
on chain hash is 7. -/
def c2TestClient : EthereumClient :=
  { get_order_hash := fun oid i =>
      if oid = "oid" then (if i = 1 then .ok 0 else .ok 5)
      else if oid = "oid2" then .ok 7
      else .error (),
    get_order_id_from_tx := fun tx =>
      if tx = "0xT" then .ok "oid2" else .error (),
    get_contract_config := .error (),
    cancel_expired_trade := fun _ => .error () }

/-- State registering `c2TestClient` for chain 8453 only. -/
def c2TestState : AppState :=
  { blockchain_client := none,
    blockchain_clients := fun k => if k = 8453 then some c2TestClient else none,
    config_cache := fun _ => none }

/-- The payment info request of the mixed retry scenario: valid plaintext,
explicit chain id, tx hash supplied. -/
def c2TestReq : PaymentInfoRequest := ⟨"12345", "Alice", some 8453, some "0xT"⟩

/-- Hash function stub whose computed commitment is 7 for every plaintext
(matching the on chain hash of "oid2" and mismatching the hash 5). -/
def c2TestHashFn : String → String → Nat := fun _ _ => 7

/-- The outcome of submitting the mixed retry scenario. -/
def c2TestOutcome : SubmitOutcome :=
  submit_payment_info c2TestState (fun _ => none) c2TestHashFn "oid" c2TestReq

/-- C2 counterexample: in the mixed retry scenario the first attempt observes
the non zero hash 5, not the all zero hash, yet because the second attempt
observed the zero hash the tx hash fallback is attempted (one receipt lookup
is performed) and verification succeeds through it. This refutes the stated
trigger condition that the fallback runs only when all 3 retry attempts
observed the all zero hash. -/
theorem C2_counterexample_single_zero_triggers_fallback :
    c2TestClient.get_order_hash "oid" 0 = .ok 5 ∧
    (5 : Nat) ≠ 0 ∧
    c2TestOutcome.tx_lookups = ["0xT"] ∧
    c2TestOutcome.result = .ok "oid2" :=
  ⟨rfl, by decide, rfl, rfl⟩

/-- Witness for `C2_tx_fallback_trigger_and_resolution` at the mixed retry
scenario. -/
theorem C2_tx_fallback_trigger_and_resolution_witness :
    trim_is_empty c2TestReq.account_id = false ∧
    trim_is_empty c2TestReq.account_name = false ∧
    payment_already_set ((fun _ => none) "oid" : Option DbOrder) = false ∧
    ((((fun _ => none) "oid" : Option DbOrder).map
        fun o => i32_as_u64 o.chain_id).or c2TestReq.chain_id = some 8453) ∧
    get_blockchain_client c2TestState 8453 = some c2TestClient ∧
    (((submit_payment_info c2TestState (fun _ => none) c2TestHashFn "oid"
          c2TestReq).tx_lookups ≠ []
      ↔ ((order_hash_retry_loop c2TestClient
            (c2TestHashFn c2TestReq.account_name c2TestReq.account_id) "oid"
            MAX_RETRIES initVerifySt).verified = false ∧
         (order_hash_retry_loop c2TestClient
            (c2TestHashFn c2TestReq.account_name c2TestReq.account_id) "oid"
            MAX_RETRIES initVerifySt).got_zero_hash = true ∧
         c2TestReq.tx_hash.isSome = true)) ∧
     (∀ tx resolved_id, c2TestReq.tx_hash = some tx →
       (order_hash_retry_loop c2TestClient
           (c2TestHashFn c2TestReq.account_name c2TestReq.account_id) "oid"
           MAX_RETRIES initVerifySt).verified = false →
       (order_hash_retry_loop c2TestClient
           (c2TestHashFn c2TestReq.account_name c2TestReq.account_id) "oid"
           MAX_RETRIES initVerifySt).got_zero_hash = true →
       c2TestClient.get_order_id_from_tx tx = .ok resolved_id →
       c2TestClient.get_order_hash resolved_id
           (order_hash_retry_loop c2TestClient
             (c2TestHashFn c2TestReq.account_name c2TestReq.account_id) "oid"
             MAX_RETRIES initVerifySt).call_idx
           = .ok (c2TestHashFn c2TestReq.account_name c2TestReq.account_id) →
       (submit_payment_info c2TestState (fun _ => none) c2TestHashFn "oid"
           c2TestReq).result = .ok resolved_id ∧
       (submit_payment_info c2TestState (fun _ => none) c2TestHashFn "oid"
           c2TestReq).payment_info_writes
           = [(resolved_id, c2TestReq.account_id, c2TestReq.account_name)])) :=
  ⟨by decide, by decide, rfl, rfl, rfl,
   C2_tx_fallback_trigger_and_resolution c2TestState (fun _ => none)
     c2TestHashFn "oid" c2TestReq 8453 c2TestClient (by decide) (by decide)
     rfl rfl rfl⟩

-- ================================================================
-- Helper lemmas for the activity timeline
-- ================================================================

/-- `activity_desc` is total (it compares integer timestamps). -/
instance : IsTotal OrderActivity activity_desc :=
  ⟨fun a b => le_total (activity_sort_ts b) (activity_sort_ts a)⟩

/-- `activity_desc` is transitive. -/
instance : IsTrans OrderActivity activity_desc :=
  ⟨fun _ _ _ hab hbc => le_trans hbc hab⟩

/-- A trade with one of the three known statuses always yields an activity. -/
theorem trade_activity_isSome (fee_rate_bps : Nat) (t : DbTrade)
    (h : t.status = 0 ∨ t.status = 1 ∨ t.status = 2) :
    (trade_activity fee_rate_bps t).isSome = true := by
  rcases h with h | h | h <;> simp [trade_activity, h]

/-- Over trades with known statuses, building activities drops nothing. -/
theorem filterMap_trade_activity_length (fee_rate_bps : Nat) :
    ∀ ts : List DbTrade,
      (∀ t ∈ ts, t.status = 0 ∨ t.status = 1 ∨ t.status = 2) →
      (ts.filterMap (trade_activity fee_rate_bps)).length = ts.length
  | [], _ => rfl
  | t :: ts, h => by
    have ht := h t (List.mem_cons_self t ts)
    have hrec := filterMap_trade_activity_length fee_rate_bps ts
      (fun x hx => h x (List.mem_cons_of_mem t hx))
    obtain ⟨a, ha⟩ := Option.isSome_iff_exists.mp
      (trade_activity_isSome fee_rate_bps t ht)
    simp [List.filterMap_cons, ha, hrec]

-- ================================================================
-- C8 (corrected)
-- ================================================================

/-- The order of the C8 scenarios. -/
def c8Order : DbOrder :=
  ⟨"o1", "0xs", "0xt", "1000", "950", "7.2", 0, "", "", 0, 8453, true, none⟩

/-- An expired trade created at time 0 whose payment window expired at 100. -/
def c8ExpiredTrade : DbTrade :=
  ⟨"0xtrade", "o1", "0xbuyer", 8453, "1000", "7200", none, 2, 0, 100, none⟩

/-- A withdrawal created at time 50, between the creation and the expiry of
`c8ExpiredTrade`. -/
def c8Withdrawal : DbWithdrawal := ⟨"50", "950", none, 50⟩

/-- C8 counterexample: one expired trade (created at 0, expiring at 100) and
one withdrawal (created at 50). The returned timeline places the withdrawal
first, because the source sorts expired trades by their creation time; under
the claimed sort timestamps (expiry time for expired trades) the expired trade
carries timestamp 100 and would have to come first, so the returned sequence
is not sorted most recent first by those timestamps. -/
theorem C8_counterexample_expired_sorted_by_creation :
    get_order_activities noClientTestState 0 c8Order [c8ExpiredTrade]
        [c8Withdrawal]
      = [.Withdrawal "50" "950" none 50,
         .ExpiredTrade "0xtrade" "0xbuyer" "1000" "7200" 0 100] ∧
    spec_activity_sort_ts (.Withdrawal "50" "950" none 50) = 50 ∧
    spec_activity_sort_ts (.ExpiredTrade "0xtrade" "0xbuyer" "1000" "7200" 0 100)
      = 100 ∧
    ¬ List.Sorted (fun a b => spec_activity_sort_ts b ≤ spec_activity_sort_ts a)
        (get_order_activities noClientTestState 0 c8Order [c8ExpiredTrade]
          [c8Withdrawal]) := by
  have heq : get_order_activities noClientTestState 0 c8Order [c8ExpiredTrade]
      [c8Withdrawal]
      = [.Withdrawal "50" "950" none 50,
         .ExpiredTrade "0xtrade" "0xbuyer" "1000" "7200" 0 100] := rfl
  refine ⟨heq, rfl, rfl, ?_⟩
  intro hsorted
  rw [heq] at hsorted
  have hle := List.rel_of_sorted_cons hsorted _ (List.mem_singleton.mpr rfl)
  simp only [spec_activity_sort_ts] at hle
  omega

/-- C8 (amended): the activity timeline merges every trade with a known
status and every withdrawal into one sequence (a permutation of the built
activities, of full length) sorted most recent first, where the sort
timestamp is the recorded `settled_at` value for settled trades (which the
source sets to the trade creation time), the creation time for pending
trades, the creation time (not the expiry time) for expired trades, and the
creation time for withdrawals. -/
theorem C8_timeline_merge_sorted (st : AppState) (now : Nat) (order : DbOrder)
    (trades : List DbTrade) (withdrawals : List DbWithdrawal)
    (hstatus : ∀ t ∈ trades, t.status = 0 ∨ t.status = 1 ∨ t.status = 2) :
    (get_order_activities st now order trades withdrawals).Perm
        (trades.filterMap (trade_activity (effective_fee_rate st now
            (i32_as_u64 order.chain_id)))
          ++ withdrawals.map withdrawal_activity) ∧
    (get_order_activities st now order trades withdrawals).length
        = trades.length + withdrawals.length ∧
    List.Sorted activity_desc
        (get_order_activities st now order trades withdrawals) := by
  refine ⟨?_, ?_, ?_⟩
  · exact List.perm_insertionSort activity_desc _
  · have hp := List.perm_insertionSort activity_desc
      (trades.filterMap (trade_activity (effective_fee_rate st now
          (i32_as_u64 order.chain_id)))
        ++ withdrawals.map withdrawal_activity)
    have hlen := hp.length_eq
    unfold get_order_activities
    rw [hlen, List.length_append, List.length_map,
      filterMap_trade_activity_length _ trades hstatus]
  · exact List.sorted_insertionSort activity_desc _

/-- Witness for `C8_timeline_merge_sorted`: a pending, a settled and an
expired trade plus one withdrawal. -/
theorem C8_timeline_merge_sorted_witness :
    (∀ t ∈ [(⟨"t0", "o1", "b0", 8453, "10", "70", none, 0, 40, 900, none⟩ : DbTrade),
            ⟨"t1", "o1", "b1", 8453, "20", "140", some "3", 1, 30, 800, some "0xs"⟩,
            ⟨"t2", "o1", "b2", 8453, "30", "210", none, 2, 20, 700, none⟩],
        t.status = 0 ∨ t.status = 1 ∨ t.status = 2) ∧
    ((get_order_activities noClientTestState 0
        ⟨"o1", "0xs", "0xt", "1000", "950", "7.2", 0, "", "", 0, 8453, true, none⟩
        [⟨"t0", "o1", "b0", 8453, "10", "70", none, 0, 40, 900, none⟩,
         ⟨"t1", "o1", "b1", 8453, "20", "140", some "3", 1, 30, 800, some "0xs"⟩,
         ⟨"t2", "o1", "b2", 8453, "30", "210", none, 2, 20, 700, none⟩]
        [⟨"5", "945", none, 10⟩]).Perm
          ([(⟨"t0", "o1", "b0", 8453, "10", "70", none, 0, 40, 900, none⟩ : DbTrade),
            ⟨"t1", "o1", "b1", 8453, "20", "140", some "3", 1, 30, 800, some "0xs"⟩,
            ⟨"t2", "o1", "b2", 8453, "30", "210", none, 2, 20, 700, none⟩].filterMap
              (trade_activity (effective_fee_rate noClientTestState 0
                (i32_as_u64 (8453 : Int))))
            ++ [(⟨"5", "945", none, 10⟩ : DbWithdrawal)].map withdrawal_activity) ∧
     (get_order_activities noClientTestState 0
        ⟨"o1", "0xs", "0xt", "1000", "950", "7.2", 0, "", "", 0, 8453, true, none⟩
        [⟨"t0", "o1", "b0", 8453, "10", "70", none, 0, 40, 900, none⟩,
         ⟨"t1", "o1", "b1", 8453, "20", "140", some "3", 1, 30, 800, some "0xs"⟩,
         ⟨"t2", "o1", "b2", 8453, "30", "210", none, 2, 20, 700, none⟩]
        [⟨"5", "945", none, 10⟩]).length = 3 + 1 ∧
     List.Sorted activity_desc
        (get_order_activities noClientTestState 0
          ⟨"o1", "0xs", "0xt", "1000", "950", "7.2", 0, "", "", 0, 8453, true, none⟩
          [⟨"t0", "o1", "b0", 8453, "10", "70", none, 0, 40, 900, none⟩,
           ⟨"t1", "o1", "b1", 8453, "20", "140", some "3", 1, 30, 800, some "0xs"⟩,
           ⟨"t2", "o1", "b2", 8453, "30", "210", none, 2, 20, 700, none⟩]
          [⟨"5", "945", none, 10⟩])) :=
  ⟨by decide,
   C8_timeline_merge_sorted noClientTestState 0
     ⟨"o1", "0xs", "0xt", "1000", "950", "7.2", 0, "", "", 0, 8453, true, none⟩
     [⟨"t0", "o1", "b0", 8453, "10", "70", none, 0, 40, 900, none⟩,
      ⟨"t1", "o1", "b1", 8453, "20", "140", some "3", 1, 30, 800, some "0xs"⟩,
      ⟨"t2", "o1", "b2", 8453, "30", "210", none, 2, 20, 700, none⟩]
     [⟨"5", "945", none, 10⟩] (by decide)⟩

-- ================================================================
-- C9 (confirmed)
-- ================================================================

/-- C9: for a settled trade, the fee reported in the activity timeline is the
recorded `fee_amount` when one exists, and otherwise equals
floor(token_amount * fee_rate_bps / 10000) computed in exact integer
arithmetic (Nat division is the floor; under the stated bound the u128
product does not wrap), where the fee rate is the one obtained from the
cached chain config by `get_order_activities`; the resulting activity is an
element of the returned timeline. -/
theorem C9_settled_trade_fee (st : AppState) (now : Nat) (order : DbOrder)
    (trades : List DbTrade) (withdrawals : List DbWithdrawal) (t : DbTrade)
    (hmem : t ∈ trades) (hstatus : t.status = 1) :
    ((∀ f, t.fee_amount = some f →
      trade_activity (effective_fee_rate st now (i32_as_u64 order.chain_id)) t
        = some (.Trade t.trade_id t.buyer t.token_amount f t.cny_amount
            t.settlement_tx_hash t.created_at)) ∧
     (∀ a, t.fee_amount = none →
      parse_u128? t.token_amount = some a →
      a * effective_fee_rate st now (i32_as_u64 order.chain_id) < 2 ^ 128 →
      trade_activity (effective_fee_rate st now (i32_as_u64 order.chain_id)) t
        = some (.Trade t.trade_id t.buyer t.token_amount
            (Nat.repr (a * effective_fee_rate st now (i32_as_u64 order.chain_id)
              / 10000))
            t.cny_amount t.settlement_tx_hash t.created_at)) ∧
     (∀ act,
      trade_activity (effective_fee_rate st now (i32_as_u64 order.chain_id)) t
          = some act →
      act ∈ get_order_activities st now order trades withdrawals)) := by
  refine ⟨?_, ?_, ?_⟩
  · intro f hf
    simp [trade_activity, hstatus, hf]
  · intro a hnone hparse hbound
    have hbound2 : a * effective_fee_rate st now (i32_as_u64 order.chain_id)
        < 340282366920938463463374607431768211456 :=
      lt_of_lt_of_le hbound (by norm_num)
    simp [trade_activity, hstatus, hnone, fallback_fee, hparse,
      Nat.mod_eq_of_lt hbound2]
  · intro act hact
    have hmem2 : act ∈ trades.filterMap (trade_activity (effective_fee_rate st
        now (i32_as_u64 order.chain_id))) ++ withdrawals.map withdrawal_activity :=
      List.mem_append_left _ (List.mem_filterMap.mpr ⟨t, hmem, hact⟩)
    unfold get_order_activities
    exact (List.perm_insertionSort activity_desc _).mem_iff.mpr hmem2

/-- Witness for `C9_settled_trade_fee`: a settled trade of 1000000 base units
with no recorded fee, under the default fee rate 100 bps, reports the fee
10000 = floor(1000000 * 100 / 10000). -/
theorem C9_settled_trade_fee_witness :
    (⟨"t1", "o1", "b1", 8453, "1000000", "7200", none, 1, 30, 800, some "0xs"⟩ : DbTrade)
        ∈ [(⟨"t1", "o1", "b1", 8453, "1000000", "7200", none, 1, 30, 800, some "0xs"⟩ : DbTrade)] ∧
    (⟨"t1", "o1", "b1", 8453, "1000000", "7200", none, 1, 30, 800, some "0xs"⟩ : DbTrade).status = 1 ∧
    ((∀ f, (⟨"t1", "o1", "b1", 8453, "1000000", "7200", none, 1, 30, 800, some "0xs"⟩ : DbTrade).fee_amount = some f →
      trade_activity (effective_fee_rate noClientTestState 0 (i32_as_u64 c8Order.chain_id))
          ⟨"t1", "o1", "b1", 8453, "1000000", "7200", none, 1, 30, 800, some "0xs"⟩
        = some (.Trade "t1" "b1" "1000000" f "7200" (some "0xs") 30)) ∧
     (∀ a, (⟨"t1", "o1", "b1", 8453, "1000000", "7200", none, 1, 30, 800, some "0xs"⟩ : DbTrade).fee_amount = none →
      parse_u128? "1000000" = some a →
      a * effective_fee_rate noClientTestState 0 (i32_as_u64 c8Order.chain_id) < 2 ^ 128 →
      trade_activity (effective_fee_rate noClientTestState 0 (i32_as_u64 c8Order.chain_id))
          ⟨"t1", "o1", "b1", 8453, "1000000", "7200", none, 1, 30, 800, some "0xs"⟩
        = some (.Trade "t1" "b1" "1000000"
            (Nat.repr (a * effective_fee_rate noClientTestState 0 (i32_as_u64 c8Order.chain_id) / 10000))
            "7200" (some "0xs") 30)) ∧
     (∀ act,
      trade_activity (effective_fee_rate noClientTestState 0 (i32_as_u64 c8Order.chain_id))
          ⟨"t1", "o1", "b1", 8453, "1000000", "7200", none, 1, 30, 800, some "0xs"⟩
          = some act →
      act ∈ get_order_activities noClientTestState 0 c8Order
          [⟨"t1", "o1", "b1", 8453, "1000000", "7200", none, 1, 30, 800, some "0xs"⟩] [])) ∧
    trade_activity (effective_fee_rate noClientTestState 0 (i32_as_u64 c8Order.chain_id))
        ⟨"t1", "o1", "b1", 8453, "1000000", "7200", none, 1, 30, 800, some "0xs"⟩
      = some (.Trade "t1" "b1" "1000000" "10000" "7200" (some "0xs") 30) :=
  ⟨by decide, rfl,
   C9_settled_trade_fee noClientTestState 0 c8Order
     [⟨"t1", "o1", "b1", 8453, "1000000", "7200", none, 1, 30, 800, some "0xs"⟩]
     [] ⟨"t1", "o1", "b1", 8453, "1000000", "7200", none, 1, 30, 800, some "0xs"⟩
     (by decide) rfl,
   by decide⟩

-- ================================================================
-- Helper lemma: the reconciliation tick never writes the gas ledger
-- ================================================================

/-- The per trade loop leaves the gas_costs table untouched, whatever happens
to each trade. -/
theorem process_expired_trades_gas_ledger (clients : Nat → Option EthereumClient) :
    ∀ (ts : List DbTrade) (count gas : Nat) (db : CancelDb),
      (process_expired_trades clients ts count gas db).db.gas_costs
        = db.gas_costs := by
  intro ts
  induction ts with
  | nil => intro count gas db; rfl
  | cons t rest ih =>
    intro count gas db
    simp only [process_expired_trades]
    cases hc : clients (i32_as_u64 t.chain_id) with
    | none =>
      simp only [hc]
      exact ih count gas db
    | some eth_client =>
      simp only [hc]
      cases hp : parse_trade_id t.trade_id with
      | error e => simp only [hp]
      | ok bytes =>
        simp only [hp]
        cases hcan : eth_client.cancel_expired_trade bytes with
        | ok p =>
          cases p with
          | mk tx gc =>
            simp only [hcan]
            exact ih (count + 1) (gas + gc) _
        | error e =>
          simp only [hcan]
          exact ih count gas db

-- ================================================================
-- C3 (code_bug): fixtures and theorem
-- ================================================================

/-- A client whose cancellation call always succeeds with tx hash
"0xcanceltx" and gas cost 21000 wei. -/
def c3CancelClient : EthereumClient :=
  { get_order_hash := fun _ _ => .error (),
    get_order_id_from_tx := fun _ => .error (),
    get_contract_config := .error (),
    cancel_expired_trade := fun _ => .ok ("0xcanceltx", 21000) }

/-- An expired pending trade on chain 8453 with a well formed 32 byte id. -/
def c3Trade : DbTrade :=
  ⟨"0xaaaaaaaaaaaaaaaaaaaaaaaaaaaaaaaaaaaaaaaaaaaaaaaaaaaaaaaaaaaaaaaa", "o1", "0xbuyer", 8453, "1000", "7200", none, 0, 0, 100, none⟩

/-- The database before the tick: one expired pending trade, every status
Pending, an empty gas ledger. -/
def c3Db : CancelDb :=
  { expired_pending_trades := [c3Trade],
    trade_status := fun _ => TRADE_STATUS_PENDING,
    gas_costs := [] }

/-- Clients registered for chain 8453 only. -/
def c3Clients : Nat → Option EthereumClient :=
  fun k => if k = 8453 then some c3CancelClient else none

/-- C3: the reconciliation tick never appends anything to the gas_costs
ledger (first conjunct, for every input); in particular on the failing input
of one expired pending trade whose cancellation succeeds, the tick reports one
cancellation with 21000 wei spent and transitions the trade to Expired, yet
the gas ledger stays empty, although `GasCostRepository::create` exists for
exactly this purpose. This contradicts the claimed append of exactly one
GasCostRecord per successful cancellation. -/
theorem C3_tick_never_appends_gas_record :
    (∀ (clients : Nat → Option EthereumClient) (db : CancelDb),
      (check_and_cancel_expired clients db).db.gas_costs = db.gas_costs) ∧
    (check_and_cancel_expired c3Clients c3Db).result = .ok (1, 21000) ∧
    (check_and_cancel_expired c3Clients c3Db).db.trade_status c3Trade.trade_id
        = TRADE_STATUS_EXPIRED ∧
    (check_and_cancel_expired c3Clients c3Db).db.gas_costs = [] ∧
    gas_cost_repository_create [] ⟨8453, "cancel_expired_trade", some c3Trade.trade_id,
        none, "0xcanceltx", 21000, "0", "21000", "0"⟩ ≠ [] := by
  refine ⟨?_, rfl, rfl, rfl, by simp [gas_cost_repository_create]⟩
  intro clients db
  unfold check_and_cancel_expired
  split
  · rfl
  · exact process_expired_trades_gas_ledger clients db.expired_pending_trades 0 0 db

-- ================================================================
-- C4 (confirmed)
-- ================================================================

/-- A per trade failure mode the tick recovers from: either no client is
registered for the chain of the trade, or a client is selected, the trade id
parses, and the on chain cancellation call itself errors. (A malformed trade
id is not such a mode: the `?` in the source aborts the tick.) -/
def trade_step_recoverable_failure (clients : Nat → Option EthereumClient)
    (t : DbTrade) : Prop :=
  match clients (i32_as_u64 t.chain_id) with
  | none => True
  | some eth_client =>
    match parse_trade_id t.trade_id with
    | .ok bytes => eth_client.cancel_expired_trade bytes = .error ()
    | .error _ => False

/-- C4: a trade whose cancellation call errors, or whose chain has no
registered client, contributes nothing to the tick: the tick computes exactly
the same result and database as the tick without that trade, so the remaining
expired trades before and after it are processed identically, the failed trade
keeps its Pending status, and the counters are unaffected; moreover an
erroring tick leaves the process totals unchanged and the monitoring loop
simply proceeds to the next tick. -/
theorem C4_single_trade_failure_isolated (clients : Nat → Option EthereumClient)
    (ts1 ts2 : List DbTrade) (t : DbTrade)
    (h : trade_step_recoverable_failure clients t) :
    (∀ (count gas : Nat) (db : CancelDb),
      process_expired_trades clients (ts1 ++ t :: ts2) count gas db
        = process_expired_trades clients (ts1 ++ ts2) count gas db) ∧
    (∀ (totals : Nat × Nat) (e : Unit),
      main_tick_accumulate totals (.error e) = totals) := by
  constructor
  · induction ts1 with
    | nil =>
      intro count gas db
      simp only [List.nil_append]
      simp only [process_expired_trades]
      unfold trade_step_recoverable_failure at h
      cases hc : clients (i32_as_u64 t.chain_id) with
      | none => simp only [hc]
      | some eth_client =>
        simp only [hc] at h ⊢
        cases hp : parse_trade_id t.trade_id with
        | error e => simp only [hp] at h
        | ok bytes =>
          simp only [hp] at h ⊢
          simp only [h]
    | cons hd tl ih =>
      intro count gas db
      simp only [List.cons_append]
      simp only [process_expired_trades]
      cases hc : clients (i32_as_u64 hd.chain_id) with
      | none =>
        simp only [hc]
        exact ih count gas db
      | some eth_client =>
        simp only [hc]
        cases hp : parse_trade_id hd.trade_id with
        | error e => simp only [hp]
        | ok bytes =>
          simp only [hp]
          cases hcan : eth_client.cancel_expired_trade bytes with
          | ok p =>
            cases p with
            | mk tx gc =>
              simp only [hcan]
              exact ih (count + 1) (gas + gc) _
          | error e =>
            simp only [hcan]
            exact ih count gas db
  · intro totals e
    rfl

/-- A trade on chain 1, for which no client is registered in `c3Clients`. -/
def c4OrphanTrade : DbTrade :=
  ⟨"0xbbbbbbbbbbbbbbbbbbbbbbbbbbbbbbbbbbbbbbbbbbbbbbbbbbbbbbbbbbbbbbbb", "o2", "0xbuyer2", 1, "500", "3600", none, 0, 0, 90, none⟩

/-- Witness for `C4_single_trade_failure_isolated`: with clients registered
for chain 8453 only, a chain 1 trade in front of `c3Trade` is skipped and the
tick computes exactly what it computes without that trade. -/
theorem C4_single_trade_failure_isolated_witness :
    trade_step_recoverable_failure c3Clients c4OrphanTrade ∧
    ((∀ (count gas : Nat) (db : CancelDb),
      process_expired_trades c3Clients ([] ++ c4OrphanTrade :: [c3Trade])
          count gas db
        = process_expired_trades c3Clients ([] ++ [c3Trade]) count gas db) ∧
     (∀ (totals : Nat × Nat) (e : Unit),
      main_tick_accumulate totals (.error e) = totals)) :=
  ⟨True.intro, C4_single_trade_failure_isolated c3Clients [] [c3Trade]
    c4OrphanTrade True.intro⟩

-- ================================================================
-- Helper lemmas for the nonce store
-- ================================================================

/-- Running a concatenation of operation lists runs them in order. -/
theorem run_nonce_ops_append :
    ∀ (xs ys : List NonceOp) (store : NonceMap),
      run_nonce_ops store (xs ++ ys) = run_nonce_ops (run_nonce_ops store xs) ys
  | [], _, _ => rfl
  | .gen m tm :: xs, ys, store => by
    simp only [List.cons_append, run_nonce_ops]
    exact run_nonce_ops_append xs ys _
  | .consume m tm :: xs, ys, store => by
    simp only [List.cons_append, run_nonce_ops]
    exact run_nonce_ops_append xs ys _

/-- Any entry of the store after a run either was there before the run or was
inserted by a generate operation of the run, at the recorded instant. -/
theorem run_nonce_ops_entry_from_gen :
    ∀ (ops : List NonceOp) (store : NonceMap) (n : String) (t0 : Nat),
      run_nonce_ops store ops n = some t0 →
      store n = some t0 ∨ NonceOp.gen n t0 ∈ ops := by
  intro ops
  induction ops with
  | nil => intro store n t0 h; exact Or.inl h
  | cons op rest ih =>
    intro store n t0 h
    cases op with
    | gen m tm =>
      rcases ih _ n t0 h with hstore | hmem
      · unfold nonce_store_generate at hstore
        by_cases hnm : n = m
        · subst hnm
          simp only [if_pos rfl] at hstore
          cases hstore
          exact Or.inr (List.mem_cons_self _ _)
        · simp only [if_neg hnm] at hstore
          cases hsn : store n with
          | none =>
            rw [hsn] at hstore
            dsimp only at hstore
            cases hstore
          | some created =>
            rw [hsn] at hstore
            dsimp only at hstore
            by_cases hfresh : tm - created < NONCE_EXPIRY_SECS
            · rw [if_pos hfresh] at hstore
              exact Or.inl hstore
            · rw [if_neg hfresh] at hstore
              cases hstore
      · exact Or.inr (List.mem_cons_of_mem _ hmem)
    | consume m tm =>
      rcases ih _ n t0 h with hstore | hmem
      · unfold nonce_store_consume at hstore
        cases hsm : store m with
        | none => rw [hsm] at hstore; exact Or.inl hstore
        | some created =>
          rw [hsm] at hstore
          simp only at hstore
          by_cases hnm : n = m
          · rw [if_pos hnm] at hstore; cases hstore
          · rw [if_neg hnm] at hstore; exact Or.inl hstore
      · exact Or.inr (List.mem_cons_of_mem _ hmem)

/-- A nonce that is absent stays absent across operations that never generate
it again. -/
theorem run_nonce_ops_none_of_no_gen :
    ∀ (ops : List NonceOp) (store : NonceMap) (n : String),
      store n = none → (∀ t0, NonceOp.gen n t0 ∉ ops) →
      run_nonce_ops store ops n = none := by
  intro ops
  induction ops with
  | nil => intro store n h _; exact h
  | cons op rest ih =>
    intro store n h hno
    cases op with
    | gen m tm =>
      have hnm : n ≠ m := by
        intro he
        exact hno tm (by rw [he]; exact List.mem_cons_self _ _)
      refine ih _ n ?_ (fun t0 hmem => hno t0 (List.mem_cons_of_mem _ hmem))
      unfold nonce_store_generate
      rw [if_neg hnm, h]
    | consume m tm =>
      refine ih _ n ?_ (fun t0 hmem => hno t0 (List.mem_cons_of_mem _ hmem))
      unfold nonce_store_consume
      cases hsm : store m with
      | none => exact h
      | some created =>
        simp only
        by_cases hnm : n = m
        · rw [if_pos hnm]
        · rw [if_neg hnm]; exact h

/-- Consuming removes the entry of the nonce, whatever the result was. -/
theorem nonce_store_consume_removes (store : NonceMap) (n : String) (t : Nat) :
    (nonce_store_consume store n t).2 n = none := by
  unfold nonce_store_consume
  cases hs : store n with
  | none => exact hs
  | some created => simp

-- ================================================================
-- C10 (confirmed)
-- ================================================================

/-- C10: SIWE nonces are single use. (a) A `consume` of nonce n can return
true only when the store holds an entry for n younger than the 5 minute
expiry, and (starting from the empty store) that entry was inserted by an
earlier `generate` of n. (b) Once n has been consumed (successfully or not),
every later `consume` of n returns false as long as no new `generate` of the
same nonce string happened in between. (c) Hence the nonce gate of
`verify_siwe` rejects a replayed SIWE message carrying n. -/
theorem C10_nonce_single_use (ops1 ops2 : List NonceOp) (n : String)
    (t t2 : Nat) (hno : ∀ t0, NonceOp.gen n t0 ∉ ops2) :
    ((nonce_store_consume (run_nonce_ops emptyNonceStore ops1) n t).1 = true →
      ∃ t0, run_nonce_ops emptyNonceStore ops1 n = some t0 ∧
        t - t0 < NONCE_EXPIRY_SECS ∧ NonceOp.gen n t0 ∈ ops1) ∧
    (nonce_store_consume
        (run_nonce_ops emptyNonceStore (ops1 ++ NonceOp.consume n t :: ops2))
        n t2).1 = false ∧
    (verify_siwe_nonce_gate
        (run_nonce_ops emptyNonceStore (ops1 ++ NonceOp.consume n t :: ops2))
        n t2).1 = false := by
  have hafter : run_nonce_ops emptyNonceStore
      (ops1 ++ NonceOp.consume n t :: ops2) n = none := by
    rw [run_nonce_ops_append]
    simp only [run_nonce_ops]
    exact run_nonce_ops_none_of_no_gen ops2 _ n
      (nonce_store_consume_removes _ n t) hno
  refine ⟨?_, ?_, ?_⟩
  · intro htrue
    unfold nonce_store_consume at htrue
    cases hs : run_nonce_ops emptyNonceStore ops1 n with
    | none =>
      rw [hs] at htrue
      dsimp only at htrue
      cases htrue
    | some t0 =>
      rw [hs] at htrue
      dsimp only at htrue
      simp only [decide_eq_true_eq] at htrue
      refine ⟨t0, rfl, htrue, ?_⟩
      rcases run_nonce_ops_entry_from_gen ops1 emptyNonceStore n t0 hs with
        hempty | hmem
      · cases hempty
      · exact hmem
  · unfold nonce_store_consume
    rw [hafter]
  · unfold verify_siwe_nonce_gate nonce_store_consume
    rw [hafter]

/-- Witness for `C10_nonce_single_use`: the nonce "n1" generated at instant 0
is consumed at instant 10; a replay attempt at instant 20 is rejected. -/
theorem C10_nonce_single_use_witness :
    (∀ t0, NonceOp.gen "n1" t0 ∉ ([] : List NonceOp)) ∧
    (((nonce_store_consume
        (run_nonce_ops emptyNonceStore [NonceOp.gen "n1" 0]) "n1" 10).1 = true →
      ∃ t0, run_nonce_ops emptyNonceStore [NonceOp.gen "n1" 0] "n1" = some t0 ∧
        10 - t0 < NONCE_EXPIRY_SECS ∧ NonceOp.gen "n1" t0 ∈ [NonceOp.gen "n1" 0]) ∧
     (nonce_store_consume
        (run_nonce_ops emptyNonceStore
          ([NonceOp.gen "n1" 0] ++ NonceOp.consume "n1" 10 :: []))
        "n1" 20).1 = false ∧
     (verify_siwe_nonce_gate
        (run_nonce_ops emptyNonceStore
          ([NonceOp.gen "n1" 0] ++ NonceOp.consume "n1" 10 :: []))
        "n1" 20).1 = false) :=
  ⟨(fun _t0 h => nomatch h),
   C10_nonce_single_use [NonceOp.gen "n1" 0] [] "n1" 10 20
     (fun _t0 h => nomatch h)⟩
